import Mathlib

/-!
# Verification of the som-networks course/registration service

Shallow embedding of the repository's API route handlers and Mongoose
schemas, together with proofs settling the frozen claims about them.

Conventions of the embedding:
* JSON values are modelled by `JVal`; JavaScript `undefined` is modelled
  as `Option.none` at lookup boundaries.
* JavaScript truthiness is `truthy`; NaN and property access on string
  primitives (e.g. `"x".length`) are not modelled since no handler path
  relevant to the claims reaches them.
* JSON numbers are modelled as `Int` (the handlers only ever compare
  against the integer 200 and render numbers in template strings).
* `fetch` and the database connection are external collaborators; each
  handler takes the outcome of those calls as an explicit
  `Except String _` argument, where `.error` models a rejected
  promise / thrown error carrying its message.
-/

inductive JVal : Type where
  | jnull : JVal
  | jbool : Bool → JVal
  | jnum : Int → JVal
  | jstr : String → JVal
  | jarr : List JVal → JVal
  | jobj : List (String × JVal) → JVal
  deriving Repr

open JVal

/-- JavaScript truthiness of a defined value: `null`, `false`, `0` and
`""` are falsy; every object and array is truthy. -/
def truthy : JVal → Bool
  | jnull => false
  | jbool b => b
  | jnum n => n != 0
  | jstr s => s ≠ ""
  | jarr _ => true
  | jobj _ => true

/-- Truthiness of a possibly-`undefined` value (`none` = `undefined`). -/
def truthyO : Option JVal → Bool
  | none => false
  | some v => truthy v

/-- First binding of a key in a JavaScript object (keys are unique in
parsed JSON; we take the first match). -/
def lookupField : List (String × JVal) → String → Option JVal
  | [], _ => none
  | (k, v) :: rest, key => if k = key then some v else lookupField rest key

/-- Property access `v[k]`: assoc lookup on objects, index lookup on
arrays (JS array index properties), `undefined` on primitives. -/
def getField : JVal → String → Option JVal
  | jobj fs, k => lookupField fs k
  | jarr xs, k => match k.toNat? with
                  | some i => xs[i]?
                  | none => none
  | _, _ => none

/-- Property access on a possibly-`undefined` value; accessing a property
of `undefined` would throw in JS, but every use in the source is guarded,
so `none` propagates. -/
def getFieldO (o : Option JVal) (k : String) : Option JVal :=
  o.bind (getField · k)

/-- JavaScript `a || b` on possibly-`undefined` operands. -/
def jsOrO (a b : Option JVal) : Option JVal :=
  if truthyO a then a else b

/-- The JS strict test `v === 200` for a possibly-undefined value. -/
def isNum200 : Option JVal → Bool
  | some (jnum 200) => true
  | _ => false

/-- The JS strict test `v === true` for a possibly-undefined value. -/
def isTrueVal : Option JVal → Bool
  | some (jbool true) => true
  | _ => false

/-- The JS test `typeof v === 'object'` (true for objects, arrays and `null`). -/
def isObjectType : JVal → Bool
  | jobj _ => true
  | jarr _ => true
  | jnull => true
  | _ => false

/-- Rendering of one array element in `Array.prototype.toString`: `null`
renders empty; nested containers are rendered only to this first level
(an approximation — no handler path relevant to the claims interpolates
container values at all). -/
def jsElemString : JVal → String
  | jnull => ""
  | jbool b => cond b "true" "false"
  | jnum n => toString n
  | jstr s => s
  | jarr _ => ""
  | jobj _ => "[object Object]"

/-- The `Array.prototype.toString` rendering: elements joined by commas. -/
def joinElems : List JVal → String
  | [] => ""
  | [x] => jsElemString x
  | x :: xs => jsElemString x ++ "," ++ joinElems xs

/-- JavaScript string conversion, as used by template interpolation. -/
def jsToString : JVal → String
  | jnull => "null"
  | jbool b => cond b "true" "false"
  | jnum n => toString n
  | jstr s => s
  | jarr xs => joinElems xs
  | jobj _ => "[object Object]"

/-- String conversion of a possibly-`undefined` value. -/
def jsToStringO : Option JVal → String
  | none => "undefined"
  | some v => jsToString v

/-- Containment of one character list in another (contiguously). -/
def listIncludes (hay needle : List Char) : Bool :=
  match hay with
  | [] => needle.isEmpty
  | _ :: t => needle.isPrefixOf hay || listIncludes t needle

/-- JavaScript `hay.includes(needle)`. -/
def strIncludes (hay needle : String) : Bool :=
  listIncludes hay.toList needle.toList

/-- ASCII lower-casing of one character (`toLowerCase` restricted to the
ASCII range — every string the handlers lower-case is ASCII). -/
def charToLower (c : Char) : Char :=
  if 'A' ≤ c ∧ c ≤ 'Z' then Char.ofNat (c.toNat + 32) else c

/-- JS `s.toLowerCase()` (ASCII range). -/
def strToLower (s : String) : String :=
  ⟨s.toList.map charToLower⟩

/-- JS `s.trim()` (over the common whitespace characters). -/
def jsTrimStr (s : String) : String :=
  ⟨((s.toList.dropWhile Char.isWhitespace).reverse.dropWhile Char.isWhitespace).reverse⟩

/-- JS `s.substring(0, n)` / `.take` on the character list. -/
def strTake (s : String) (n : Nat) : String :=
  ⟨s.toList.take n⟩

/-- The first-occurrence scan of JS `String.prototype.replace`, with
explicit fuel (the fuel is the haystack length, which bounds the number
of scan steps; only non-empty patterns are used by the handlers). -/
def replaceAllAux : Nat → List Char → List Char → List Char → List Char
  | 0, s, _, _ => s
  | fuel + 1, s, pat, rep =>
    match s with
    | [] => []
    | c :: cs =>
      if pat ≠ [] ∧ pat.isPrefixOf (c :: cs) then
        rep ++ replaceAllAux fuel ((c :: cs).drop pat.length) pat rep
      else
        c :: replaceAllAux fuel cs pat rep

/-- JS `s.replace(/pat/g, rep)`: every non-overlapping occurrence,
scanning left to right. -/
def jsReplaceAll (s pat rep : String) : String :=
  ⟨replaceAllAux s.toList.length s.toList pat.toList rep.toList⟩

/-- The `String.prototype.replace` scan with a plain-string pattern: replaces the
first occurrence only (empty pattern inserts at the front, as in JS). -/
def replaceFirstAux : List Char → List Char → List Char → List Char
  | [], pat, rep => if pat = [] then rep else []
  | c :: cs, pat, rep =>
    if pat ≠ [] ∧ pat.isPrefixOf (c :: cs) then
      rep ++ (c :: cs).drop pat.length
    else if pat = [] then
      rep ++ c :: cs
    else
      c :: replaceFirstAux cs pat rep

/-- JS `s.replace(pat, rep)` for string patterns (first occurrence). -/
def jsReplaceFirst (s pat rep : String) : String :=
  ⟨replaceFirstAux s.toList pat.toList rep.toList⟩

/-- JS `text.replace(/^"|"$/g, "")`: strips one leading and one trailing
double quote. -/
def stripOuterQuotes (s : String) : String :=
  let cs := s.toList
  let cs := match cs with
            | '"' :: rest => rest
            | other => other
  let cs := match cs.reverse with
            | '"' :: rest => rest.reverse
            | _ => cs
  ⟨cs⟩

/-! ## Group-invitation flow: `POST /api/groups/[chatId]/participants/add`

Embedded from `src/app/api/groups/route.ts`.  The handler performs up to
two `fetch` calls (direct add, then invite code); their outcomes are the
`Except String FetchResponse` arguments.  The handler body contains **no**
`try`/`catch`, so a rejected fetch — modelled as `.error` — propagates out
of the handler, which the embedding records as an `.error` result. -/

/-- A participant entry of the request body; the handler reads only the
`id` property of entries. -/
structure Participant where
  id : String
  deriving Repr, DecidableEq

/-- The parsed JSON body of the invitation request.  `participants` is
`none` when the field is missing or not an array. -/
structure GroupsPostBody where
  participants : Option (List Participant)
  studentName : Option JVal
  courseName : Option JVal

/-- Outcome of a successful (non-rejected) `fetch`: HTTP-level success
flag, numeric status, status text, raw body text, and the result of
`JSON.parse` on that text (`none` when parsing throws). -/
structure FetchResponse where
  ok : Bool
  status : Int
  statusText : String
  text : String
  parsed : Option JVal

/-- A `NextResponse.json(body, \x7b status \x7d)` value. -/
structure ApiResponse where
  body : JVal
  status : Int
  deriving Repr

/-- The request the handler issues to the external provider's
`/groups/:chatId/participants/add` endpoint: the group id (carried in the
URL) and the forwarded payload `JSON.stringify(\x7b participants \x7d)`. -/
structure AddRequest where
  chatId : String
  participants : List Participant
  deriving Repr, DecidableEq

/-- Full observable behaviour of one invocation of the handler: which
upstream add request was issued (if any), whether the invite-code request
was issued, and the returned response or propagated exception. -/
structure InviteCall where
  addRequest : Option AddRequest
  inviteRequested : Bool
  result : Except String ApiResponse

/-- The `responseBody` value as computed at lines 123–133 of the handler: `null`
for an empty body text, the parse result when `JSON.parse` succeeds, and
the raw text otherwise. -/
def addResponseBody (r : FetchResponse) : Option JVal :=
  if r.text = "" then none
  else match r.parsed with
       | some v => some v
       | none => some (jstr r.text)

/-- Result of the body inspection at lines 140–175: the
`directAddSuccessful` flag and the captured `addError` value. -/
structure AddCheckResult where
  directAddSuccessful : Bool
  addError : Option JVal
  deriving Repr

/-- The template `Failed with code $\x7bparticipantResponse.code || 'unknown'\x7d`. -/
def failedCodeMsg (pr : JVal) : String :=
  "Failed with code " ++
    (if truthyO (getField pr "code") then jsToStringO (getField pr "code") else "unknown")

/-- The value `participantResponse.message || failedCodeMsg` (JS `||` on the
possibly-absent `message` property). -/
def addFailMsg (pr : JVal) : JVal :=
  match getField pr "message" with
  | some m => if truthy m then m else jstr (failedCodeMsg pr)
  | none => jstr (failedCodeMsg pr)

/-- The checks applied to an object body when the participant key is
absent or falsy: top-level `code === 200`, then `success === true`, then
a truthy `error` property, else the generic message. -/
def topLevelCheck (v : JVal) : AddCheckResult :=
  if isNum200 (getField v "code") then ⟨true, none⟩
  else if isTrueVal (getField v "success") then ⟨true, none⟩
  else if truthyO (getField v "error") then ⟨false, getField v "error"⟩
  else ⟨false, some (jstr "No success code in response body")⟩

/-- The success decision of the direct-add step (lines 140–175 of the
handler), a function of the participant id and the parsed response body
only — the HTTP status of the add response is never consulted. -/
def checkDirectAdd (participantId : String) : Option JVal → AddCheckResult
  | some v =>
    if truthy v && isObjectType v then
      match getField v participantId with
      | some pr =>
        if truthy pr then
          if isNum200 (getField pr "code") then ⟨true, none⟩
          else ⟨false, some (addFailMsg pr)⟩
        else topLevelCheck v
      | none => topLevelCheck v
    else
      match v with
      | jstr s =>
        if strIncludes s "200" || strIncludes (strToLower s) "success" then ⟨true, none⟩
        else ⟨false, some (jstr ("String response: " ++ strTake s 100))⟩
      | _ => ⟨false, some (jstr "Empty or invalid response body")⟩
  | none => ⟨false, some (jstr "Empty or invalid response body")⟩

/-- The raw invite-code value of lines 212–222:
`jsonData.inviteCode || jsonData.code || jsonData.data || jsonData.link
|| jsonData.invite || jsonData || ""` when the body parses, the
quote-stripped trimmed text when parsing throws, and the initial `""`
when the body text is empty. -/
def inviteCodeRaw (text : String) (parsed : Option JVal) : JVal :=
  if text = "" then jstr ""
  else
    match parsed with
    | some jd =>
      (jsOrO (jsOrO (jsOrO (jsOrO (jsOrO (jsOrO
        (getField jd "inviteCode") (getField jd "code")) (getField jd "data"))
        (getField jd "link")) (getField jd "invite")) (some jd))
        (some (jstr ""))).getD (jstr "")
    | none => jstr (jsTrimStr (stripOuterQuotes text))

/-- Canonical invite URL reconstruction of lines 224–228: strip an
already-included URL prefix (first occurrence, as JS `replace` does),
trim, and prepend the canonical prefix. -/
def mkInviteLink (code : String) : String :=
  "https://chat.whatsapp.com/" ++
    jsTrimStr (jsReplaceFirst (jsReplaceFirst code "https://chat.whatsapp.com/" "")
      "chat.whatsapp.com/" "")

/-- Outcome of the invite-code extraction: a link, the
empty-or-not-found case, or a thrown `TypeError` (the handler calls
`.trim()` on the raw value, which throws when that value is a truthy
non-string such as the parsed object itself). -/
inductive InviteExtract where
  | link (url : String)
  | noCode
  | typeError
  deriving Repr, DecidableEq

/-- Lines 211–233 applied to an HTTP-OK invite-code response. -/
def extractInvite (text : String) (parsed : Option JVal) : InviteExtract :=
  let raw := inviteCodeRaw text parsed
  if truthy raw then
    match raw with
    | jstr s => if jsTrimStr s ≠ "" then .link (mkInviteLink s) else .noCode
    | _ => .typeError
  else .noCode

/-- The manual-invite message of lines 243–250, varying with which of
the optional display strings are truthy. -/
def composeMessage (studentName courseName : Option JVal) (inviteLink : String) : String :=
  if truthyO studentName && truthyO courseName then
    jsToStringO studentName ++ "! Fadlan kusoo biir groupka \"" ++
      jsToStringO courseName ++ "\"  " ++ inviteLink
  else if truthyO studentName then
    jsToStringO studentName ++ "! Fadlan kusoo biir groupka " ++ inviteLink
  else
    "Fadlan kusoo biir groupka " ++ inviteLink

/-- A JSON field that is dropped when its value is `v || undefined` with
`v` falsy (JSON serialization omits `undefined` fields). -/
def optField (k : String) (v : Option JVal) : List (String × JVal) :=
  match v with
  | some x => if truthy x then [(k, x)] else []
  | none => []

/-- Body of the 400 validation response for a missing/empty
participants array. -/
def participantsRequiredBody : JVal :=
  jobj [("success", jbool false), ("error", jstr "Participants array is required")]

/-- Body of the direct-success response (lines 178–188). -/
def directSuccessBody (rb : Option JVal) : JVal :=
  jobj [("success", jbool true), ("data", rb.getD jnull),
        ("method", jstr "direct_add"),
        ("message", jstr "Participant added directly to group")]

/-- The fixed `note` string of the fallback response. -/
def whatsAppNote : String :=
  "The WhatsApp API is currently experiencing issues with sending messages (\x27Lid is missing in chat table\x27). Please send the invite link manually to the student."

/-- The `curlCommand` string of the fallback response, with each
apostrophe of the message escaped as in
`messageToSend.replace(/\x27/g, "\\\x27")`. -/
def curlCommandFor (apiKey pid msg : String) : String :=
  "curl -X \x27POST\x27 \x27http://178.18.245.131:3000/api/sendText\x27 -H \x27accept: application/json\x27 -H \x27X-Api-Key: " ++
    apiKey ++ "\x27 -H \x27Content-Type: application/json\x27 -d \x27\x7b\"chatId\": \"" ++
    pid ++ "\", \"reply_to\": null, \"text\": \"" ++
    (jsReplaceAll msg "\x27" "\\\x27") ++
    "\", \"linkPreview\": true, \"linkPreviewHighQuality\": false, \"session\": \"default\"\x7d\x27"

/-- Body of the fallback (manual-invite) response, lines 252–266. -/
def fallbackBody (apiKey pid url msg : String) (addError : Option JVal) : JVal :=
  jobj ([("success", jbool true),
         ("method", jstr "manual_invite_required"),
         ("inviteLink", jstr url),
         ("messageToSend", jstr msg),
         ("participantId", jstr pid)] ++
        optField "originalAddError" addError ++
        [("note", jstr whatsAppNote),
         ("instructions", jstr ("Send this message to " ++ pid ++ ": \"" ++ msg ++ "\"")),
         ("curlCommand", jstr (curlCommandFor apiKey pid msg)),
         ("message", jstr "Participant couldn\x27t be added directly. Invite link was generated. Please send it manually to the student using the provided details.")])

/-- Body of the complete-failure response, lines 269–280. -/
def completeFailureBody (pid : String) (addError inviteCodeError : Option JVal) : JVal :=
  jobj ([("success", jbool false),
         ("method", jstr "complete_failure"),
         ("inviteLink", jnull),
         ("participantId", jstr pid)] ++
        optField "originalAddError" addError ++
        optField "inviteCodeError" inviteCodeError ++
        [("message", jstr "Failed to add participant directly and could not get invite link. Manual intervention required.")])

/-- The response (or propagated exception) of the invitation handler
`POST /api/groups/[chatId]/participants/add`, transcribing its control
flow: validate the participants array, inspect the direct-add response
body, and on failure process the invite-code response.  Only
`participants[0].id` is read from the participants list. -/
def inviteResult (apiKey : String) (body : GroupsPostBody)
    (addFetch inviteFetch : Except String FetchResponse) : Except String ApiResponse :=
  match body.participants with
  | none => .ok ⟨participantsRequiredBody, 400⟩
  | some [] => .ok ⟨participantsRequiredBody, 400⟩
  | some (p :: _) =>
    match addFetch with
    | .error e => .error e
    | .ok addResp =>
      if (checkDirectAdd p.id (addResponseBody addResp)).directAddSuccessful then
        .ok ⟨directSuccessBody (addResponseBody addResp), 200⟩
      else
        match inviteFetch with
        | .error e => .error e
        | .ok inv =>
          if inv.ok then
            match extractInvite inv.text inv.parsed with
            | .link url =>
              .ok ⟨fallbackBody apiKey p.id url
                     (composeMessage body.studentName body.courseName url)
                     (checkDirectAdd p.id (addResponseBody addResp)).addError, 200⟩
            | .noCode =>
              .ok ⟨completeFailureBody p.id
                     (checkDirectAdd p.id (addResponseBody addResp)).addError
                     (some (jstr "Invite code empty or not found in response")), 500⟩
            | .typeError =>
              .error "TypeError: inviteCode.trim is not a function"
          else
            .ok ⟨completeFailureBody p.id
                   (checkDirectAdd p.id (addResponseBody addResp)).addError
                   (some (jstr ("HTTP " ++ toString inv.status ++ ": " ++ strTake inv.text 200))), 500⟩

/-- The upstream add request the handler issues: it is issued exactly
when validation passes, and its payload forwards the **entire**
participants array (`JSON.stringify(\x7b participants \x7d)`, line 120). -/
def addRequestOf (chatId : String) (body : GroupsPostBody) : Option AddRequest :=
  match body.participants with
  | some (p :: ps) => some ⟨chatId, p :: ps⟩
  | _ => none

/-- Whether the invite-code request is issued: exactly when validation
passes, the add fetch resolves, and the direct-add check fails. -/
def inviteRequestedOf (body : GroupsPostBody)
    (addFetch : Except String FetchResponse) : Bool :=
  match body.participants with
  | some (p :: _) =>
    match addFetch with
    | .ok addResp => !(checkDirectAdd p.id (addResponseBody addResp)).directAddSuccessful
    | .error _ => false
  | _ => false

/-- Full observable behaviour of one invocation of the invitation
handler. -/
def inviteFlow (apiKey chatId : String) (body : GroupsPostBody)
    (addFetch inviteFetch : Except String FetchResponse) : InviteCall :=
  ⟨addRequestOf chatId body, inviteRequestedOf body addFetch,
   inviteResult apiKey body addFetch inviteFetch⟩

/-! ## Entity store, schemas and CRUD endpoints

Embedded from `src/models/*.ts`, `src/app/api/courses/**` and the
students routes.  The document store is modelled as in-memory lists in
insertion order; generated identifiers are supplied as arguments.  A
list endpoint's `sort(\x7b createdAt: -1 \x7d)` is modelled as reversal of the
insertion order.  `connectDB()` is an external call whose outcome is the
`Except String Unit` argument; every CRUD handler wraps its body in
`try`/`catch`, so a failed connection becomes a 500 error envelope.
Timestamps and `__v` are not modelled; no claim mentions them. -/

/-- A course session time slot (free-form strings, e.g. `"8:00"`). -/
structure Session where
  startTime : String
  endTime : String
  deriving Repr, DecidableEq

/-- A stored Course document of the sessions-based schema variant
(`src/unnamed/part_000`). -/
structure CourseDoc where
  _id : String
  courseName : String
  sessions : List Session
  deriving Repr, DecidableEq

/-- A stored Course document of the chatId-based schema variant
(`src/models/Course.ts`). -/
structure ChatCourseDoc where
  _id : String
  courseName : String
  chatId : String
  deriving Repr, DecidableEq

/-- A stored Student document (`src/models/Student.ts`).  The schema
lower-cases and trims `email`; session strings are stored untrimmed
(`selectedSessions` declares no `trim`). -/
structure StudentDoc where
  _id : String
  name : String
  email : String
  university : String
  phoneNumber : String
  courseId : String
  selectedSessions : List Session
  deriving Repr, DecidableEq

/-- The document database contents for the sessions-variant deployment. -/
structure AppDb where
  courses : List CourseDoc
  students : List StudentDoc
  deriving Repr, DecidableEq

/-- Error envelope `\x7b success: false, error \x7d`. -/
def mkErrEnv (msg : String) : JVal :=
  jobj [("success", jbool false), ("error", jstr msg)]

/-- Success envelope `\x7b success: true, data \x7d`. -/
def mkDataEnv (d : JVal) : JVal :=
  jobj [("success", jbool true), ("data", d)]

/-- Success envelope `\x7b success: true, message \x7d` (used by deletes). -/
def mkMsgEnv (msg : String) : JVal :=
  jobj [("success", jbool true), ("message", jstr msg)]

/-- JSON serialization of a session subdocument. -/
def sessionJson (s : Session) : JVal :=
  jobj [("startTime", jstr s.startTime), ("endTime", jstr s.endTime)]

/-- JSON serialization of a sessions-variant course document. -/
def courseJson (c : CourseDoc) : JVal :=
  jobj [("_id", jstr c._id), ("courseName", jstr c.courseName),
        ("sessions", jarr (c.sessions.map sessionJson))]

/-- JSON serialization of a chatId-variant course document. -/
def chatCourseJson (c : ChatCourseDoc) : JVal :=
  jobj [("_id", jstr c._id), ("courseName", jstr c.courseName),
        ("chatId", jstr c.chatId)]

/-- JSON serialization of a student, with `courseId` populated from the
course collection (`populate("courseId", "courseName sessions")`); a
dangling reference populates to `null`. -/
def studentJson (courses : List CourseDoc) (s : StudentDoc) : JVal :=
  jobj [("_id", jstr s._id), ("name", jstr s.name), ("email", jstr s.email),
        ("university", jstr s.university), ("phoneNumber", jstr s.phoneNumber),
        ("courseId",
          match courses.find? (fun c => c._id = s.courseId) with
          | some c => courseJson c
          | none => jnull),
        ("selectedSessions", jarr (s.selectedSessions.map sessionJson))]

/-- The email pattern `/^\S+@\S+\.\S+$/` used by the student routes and
`StudentSchema`: no whitespace anywhere, an `@` with at least one
character before it, and a later `.` with at least one character between
and after. -/
def emailMatch (s : String) : Bool :=
  let cs := s.toList
  cs.all (fun c => !c.isWhitespace) &&
  (List.range cs.length).any (fun i =>
    (cs[i]? == some '@') && decide (1 ≤ i) &&
    (List.range cs.length).any (fun j =>
      (cs[j]? == some '.') && decide (i + 2 ≤ j) && decide (j + 2 ≤ cs.length)))

/-- Read one session subdocument out of a request-body JSON value
(string cast via JS string conversion, as the Mongoose `String` cast
does for the values that reach it). -/
def sessionOfJVal (v : JVal) : Session :=
  ⟨jsToStringO (getField v "startTime"), jsToStringO (getField v "endTime")⟩

/-- Same, with the `trim: true` setters of the course schema applied. -/
def sessionOfJValTrim (v : JVal) : Session :=
  ⟨jsTrimStr (jsToStringO (getField v "startTime")), jsTrimStr (jsToStringO (getField v "endTime"))⟩

/-- Body of `POST /api/courses` (sessions variant): `sessions` is `none`
when the field is falsy or not an array. -/
structure CoursesPostBody where
  courseName : JVal
  sessions : Option (List JVal)

/-- Handler `GET /api/courses`: all courses, newest first. -/
def coursesGET (conn : Except String Unit) (db : AppDb) : ApiResponse :=
  match conn with
  | .error e => ⟨mkErrEnv e, 500⟩
  | .ok _ => ⟨mkDataEnv (jarr ((db.courses.reverse).map courseJson)), 200⟩

/-- Handler `POST /api/courses` (sessions variant, `src/app/api/courses/route.ts`). -/
def coursesPOST (conn : Except String Unit) (db : AppDb) (newId : String)
    (body : CoursesPostBody) : ApiResponse × AppDb :=
  match conn with
  | .error e => (⟨mkErrEnv e, 500⟩, db)
  | .ok _ =>
    if !truthy body.courseName then
      (⟨mkErrEnv "Course name is required", 400⟩, db)
    else
      match body.sessions with
      | none => (⟨mkErrEnv "At least one session is required", 400⟩, db)
      | some [] => (⟨mkErrEnv "At least one session is required", 400⟩, db)
      | some ss =>
        if ss.all (fun s => truthyO (getField s "startTime") && truthyO (getField s "endTime")) then
          let c : CourseDoc :=
            ⟨newId, jsTrimStr (jsToString body.courseName), ss.map sessionOfJValTrim⟩
          (⟨mkDataEnv (courseJson c), 201⟩, { db with courses := db.courses ++ [c] })
        else
          (⟨mkErrEnv "Each session must have startTime and endTime", 400⟩, db)

/-- Body of `PUT /api/courses/[id]` (sessions variant): `sessions` is
`none` when the field is falsy. -/
structure CoursePutBody where
  courseName : JVal
  sessions : Option (List JVal)

/-- The partial update applied by `findByIdAndUpdate` for the sessions
variant (schema `trim` setters applied). -/
def applyCourseUpdate (body : CoursePutBody) (c : CourseDoc) : CourseDoc :=
  let c1 := if truthy body.courseName then
              { c with courseName := jsTrimStr (jsToString body.courseName) }
            else c
  match body.sessions with
  | some ss => { c1 with sessions := ss.map sessionOfJValTrim }
  | none => c1

/-- Handler `PUT /api/courses/[id]` (sessions variant). -/
def coursePUT (conn : Except String Unit) (db : AppDb) (id : String)
    (body : CoursePutBody) : ApiResponse × AppDb :=
  match conn with
  | .error e => (⟨mkErrEnv e, 500⟩, db)
  | .ok _ =>
    if !truthy body.courseName && body.sessions.isNone then
      (⟨mkErrEnv "At least one field (courseName or sessions) is required", 400⟩, db)
    else
      match body.sessions with
      | some [] => (⟨mkErrEnv "At least one session is required", 400⟩, db)
      | some (s0 :: rest) =>
        if (s0 :: rest).all (fun s => truthyO (getField s "startTime") && truthyO (getField s "endTime")) then
          match db.courses.find? (fun c => c._id = id) with
          | none => (⟨mkErrEnv "Course not found", 404⟩, db)
          | some c =>
            (⟨mkDataEnv (courseJson (applyCourseUpdate body c)), 200⟩,
             { db with courses :=
                 db.courses.map (fun d => if d._id = id then applyCourseUpdate body d else d) })
        else
          (⟨mkErrEnv "Each session must have startTime and endTime", 400⟩, db)
      | none =>
        match db.courses.find? (fun c => c._id = id) with
        | none => (⟨mkErrEnv "Course not found", 404⟩, db)
        | some c =>
          (⟨mkDataEnv (courseJson (applyCourseUpdate body c)), 200⟩,
           { db with courses :=
               db.courses.map (fun d => if d._id = id then applyCourseUpdate body d else d) })

/-- Handler `DELETE /api/courses/[id]` (document ids are unique, so removing
every match models `findByIdAndDelete`).  It touches only the course
collection: no dependent-student cleanup appears anywhere in the
handler. -/
def courseDELETE (conn : Except String Unit) (db : AppDb) (id : String) :
    ApiResponse × AppDb :=
  match conn with
  | .error e => (⟨mkErrEnv e, 500⟩, db)
  | .ok _ =>
    if db.courses.any (fun c => c._id = id) then
      (⟨mkMsgEnv "Course deleted successfully", 200⟩,
       { db with courses := db.courses.filter (fun c => ¬ c._id = id) })
    else
      (⟨mkErrEnv "Course not found", 404⟩, db)

/-- Body of the student create/update endpoints; `selectedSessions` is
`none` when the field is falsy or not an array. -/
structure StudentsBody where
  name : JVal
  email : JVal
  university : JVal
  phoneNumber : JVal
  courseId : JVal
  selectedSessions : Option (List JVal)

/-- The Student document built by `Student.create` after schema setters:
`trim` on the scalar strings, `lowercase` on the email, **no** trim on
the session strings (`StudentSchema.selectedSessions` declares none). -/
def mkStudentDoc (newId : String) (b : StudentsBody) (ss : List JVal) : StudentDoc :=
  ⟨newId, jsTrimStr (jsToString b.name), strToLower (jsTrimStr (jsToString b.email)),
   jsTrimStr (jsToString b.university), jsTrimStr (jsToString b.phoneNumber),
   jsToString b.courseId, ss.map sessionOfJVal⟩

/-- Outcome of inserting a student document. -/
inductive InsertOutcome where
  | created (d : StudentDoc)
  | dupKey
  | failed (msg : String)
  deriving Repr, DecidableEq

/-- Insertion into the student collection.  MongoDB raises a
duplicate-key error (`code: 11000`) only for fields carrying a unique
index, and Mongoose creates such an index only for schema paths declared
`unique: true`.  `StudentSchema.email` declares `trim`, `lowercase` and
`match` but **not** `unique` (src/models/Student.ts lines 30–36), so no
insert ever yields `.dupKey`; schema `required` validation is
approximated by the emptiness checks (its exact message text is not
modelled). -/
def studentInsert (d : StudentDoc) : InsertOutcome :=
  if d.name = "" || d.email = "" || d.university = "" || d.phoneNumber = "" ||
     d.courseId = "" || d.selectedSessions.isEmpty then
    .failed "Student validation failed"
  else
    .created d

/-- Handler `GET /api/students` (`src/unnamed/part_002`): all students, newest
first, each joined with its course summary. -/
def studentsGET (conn : Except String Unit) (db : AppDb) : ApiResponse :=
  match conn with
  | .error e => ⟨mkErrEnv e, 500⟩
  | .ok _ => ⟨mkDataEnv (jarr ((db.students.reverse).map (studentJson db.courses))), 200⟩

/-- Handler `POST /api/students` (`src/unnamed/part_002`).  The `catch` clause
distinguishes `error.code === 11000` (duplicate email) from other
errors; with no unique index that branch is unreachable, which the
`match` below makes explicit. -/
def studentsPOST (conn : Except String Unit) (db : AppDb) (newId : String)
    (b : StudentsBody) : ApiResponse × AppDb :=
  match conn with
  | .error e => (⟨mkErrEnv e, 500⟩, db)
  | .ok _ =>
    if !(truthy b.name && truthy b.email && truthy b.university &&
         truthy b.phoneNumber && truthy b.courseId) then
      (⟨mkErrEnv "All fields are required", 400⟩, db)
    else
      match b.selectedSessions with
      | none => (⟨mkErrEnv "At least one session must be selected", 400⟩, db)
      | some [] => (⟨mkErrEnv "At least one session must be selected", 400⟩, db)
      | some ss =>
        if !emailMatch (jsToString b.email) then
          (⟨mkErrEnv "Please enter a valid email address", 400⟩, db)
        else if ss.all (fun s => truthyO (getField s "startTime") && truthyO (getField s "endTime")) then
          match studentInsert (mkStudentDoc newId b ss) with
          | .created d =>
            (⟨mkDataEnv (studentJson db.courses d), 201⟩,
             { db with students := db.students ++ [d] })
          | .dupKey =>
            (⟨mkErrEnv "A student with this email already exists", 400⟩, db)
          | .failed m => (⟨mkErrEnv m, 500⟩, db)
        else
          (⟨mkErrEnv "Each session must have startTime and endTime", 400⟩, db)

/-- The partial update applied by the student `findByIdAndUpdate`: only
truthy fields are applied, through the schema setters. -/
def applyStudentUpdate (b : StudentsBody) (s : StudentDoc) : StudentDoc :=
  let s := if truthy b.name then { s with name := jsTrimStr (jsToString b.name) } else s
  let s := if truthy b.email then
             { s with email := strToLower (jsTrimStr (jsToString b.email)) } else s
  let s := if truthy b.university then
             { s with university := jsTrimStr (jsToString b.university) } else s
  let s := if truthy b.phoneNumber then
             { s with phoneNumber := jsTrimStr (jsToString b.phoneNumber) } else s
  let s := if truthy b.courseId then
             { s with courseId := jsToString b.courseId } else s
  match b.selectedSessions with
  | some ss => { s with selectedSessions := ss.map sessionOfJVal }
  | none => s

/-- Handler `PUT /api/students/[id]` (`src/unnamed/part_001`). -/
def studentPUT (conn : Except String Unit) (db : AppDb) (id : String)
    (b : StudentsBody) : ApiResponse × AppDb :=
  match conn with
  | .error e => (⟨mkErrEnv e, 500⟩, db)
  | .ok _ =>
    if truthy b.email && !emailMatch (jsToString b.email) then
      (⟨mkErrEnv "Please enter a valid email address", 400⟩, db)
    else
      match b.selectedSessions with
      | some [] => (⟨mkErrEnv "At least one session must be selected", 400⟩, db)
      | some (s0 :: rest) =>
        if (s0 :: rest).all (fun s => truthyO (getField s "startTime") && truthyO (getField s "endTime")) then
          match db.students.find? (fun s => s._id = id) with
          | none => (⟨mkErrEnv "Student not found", 404⟩, db)
          | some s =>
            (⟨mkDataEnv (studentJson db.courses (applyStudentUpdate b s)), 200⟩,
             { db with students :=
                 db.students.map (fun d => if d._id = id then applyStudentUpdate b d else d) })
        else
          (⟨mkErrEnv "Each session must have startTime and endTime", 400⟩, db)
      | none =>
        match db.students.find? (fun s => s._id = id) with
        | none => (⟨mkErrEnv "Student not found", 404⟩, db)
        | some s =>
          (⟨mkDataEnv (studentJson db.courses (applyStudentUpdate b s)), 200⟩,
           { db with students :=
               db.students.map (fun d => if d._id = id then applyStudentUpdate b d else d) })

/-- Handler `DELETE /api/students/[id]` (`src/unnamed/part_001`). -/
def studentDELETE (conn : Except String Unit) (db : AppDb) (id : String) :
    ApiResponse × AppDb :=
  match conn with
  | .error e => (⟨mkErrEnv e, 500⟩, db)
  | .ok _ =>
    if db.students.any (fun s => s._id = id) then
      (⟨mkMsgEnv "Student deleted successfully", 200⟩,
       { db with students := db.students.filter (fun s => ¬ s._id = id) })
    else
      (⟨mkErrEnv "Student not found", 404⟩, db)

/-- Body of `PUT /api/courses/[id]` in the chatId schema variant. -/
structure ChatCoursePutBody where
  courseName : JVal
  chatId : JVal

/-- Handler `PUT /api/courses/[id]` (chatId variant, second handler of
`src/app/api/courses/[id]/route.ts`). -/
def coursePUTChat (conn : Except String Unit) (db : List ChatCourseDoc) (id : String)
    (body : ChatCoursePutBody) : ApiResponse × List ChatCourseDoc :=
  match conn with
  | .error e => (⟨mkErrEnv e, 500⟩, db)
  | .ok _ =>
    if !truthy body.courseName && !truthy body.chatId then
      (⟨mkErrEnv "At least one field (courseName or chatId) is required", 400⟩, db)
    else
      let upd (c : ChatCourseDoc) : ChatCourseDoc :=
        let c1 := if truthy body.courseName then
                    { c with courseName := jsTrimStr (jsToString body.courseName) } else c
        if truthy body.chatId then { c1 with chatId := jsTrimStr (jsToString body.chatId) } else c1
      match db.find? (fun c => c._id = id) with
      | none => (⟨mkErrEnv "Course not found", 404⟩, db)
      | some c =>
        (⟨mkDataEnv (chatCourseJson (upd c)), 200⟩,
         db.map (fun d => if d._id = id then upd d else d))

/-! ## Groups list proxy: `GET /api/groups` -/

/-- Outcome of the proxied groups fetch: HTTP success flag, status text,
and the `response.json()` result (`.error` when that call throws). -/
structure GroupsFetch where
  ok : Bool
  statusText : String
  json : Except String JVal

/-- Access of `group.groupMetadata` with optional-chaining semantics: `undefined`
and `null` short-circuit. -/
def chainField (o : Option JVal) (k : String) : Option JVal :=
  match o with
  | none => none
  | some jnull => none
  | some v => getField v k

/-- The per-group transformation of `GET /api/groups` (lines 37–42). -/
def transformGroup (g : JVal) : JVal :=
  let chatIdV := jsOrO (chainField (getField g "id") "_serialized")
                       (chainField (chainField (getField g "groupMetadata") "id") "_serialized")
  let nameV := jsOrO (getField g "name")
                 (jsOrO (chainField (getField g "groupMetadata") "subject")
                        (some (jstr "Unknown Group")))
  let subjectV := jsOrO (chainField (getField g "groupMetadata") "subject") (getField g "name")
  let countV :=
    match chainField (getField g "groupMetadata") "participants" with
    | some (jarr xs) => if xs.length ≠ 0 then jnum xs.length else jnum 0
    | _ => jnum 0
  jobj ((match chatIdV with | some v => [("chatId", v)] | none => []) ++
        (match nameV with | some v => [("name", v)] | none => []) ++
        (match subjectV with | some v => [("subject", v)] | none => []) ++
        [("participantsCount", countV)])

/-- Handler `GET /api/groups` (first handler of `src/app/api/groups/route.ts`);
its whole body is wrapped in `try`/`catch`, the catch producing
`error.message || "Failed to fetch groups"` with status 500.  Calling
`.map` on a non-array json value throws a `TypeError`, which the catch
converts as well. -/
def groupsGET (apiKey : String) (fetched : Except String GroupsFetch) : ApiResponse :=
  if apiKey = "" then
    ⟨jobj [("success", jbool false), ("error", jstr "WhatsApp API key not configured")], 500⟩
  else
    match fetched with
    | .error e => ⟨mkErrEnv (if e = "" then "Failed to fetch groups" else e), 500⟩
    | .ok r =>
      if !r.ok then
        ⟨mkErrEnv ("Failed to fetch groups: " ++ r.statusText), 500⟩
      else
        match r.json with
        | .error e => ⟨mkErrEnv (if e = "" then "Failed to fetch groups" else e), 500⟩
        | .ok (jarr gs) =>
          ⟨mkDataEnv (jarr ((gs.map transformGroup).filter
             (fun g => truthyO (getField g "chatId")))), 200⟩
        | .ok _ => ⟨mkErrEnv "groups.map is not a function", 500⟩

/-! ## Specification-side decision rules and the envelope predicate -/

/-- The direct-add success rule exactly as the claim words it: an
ordered rule whose first case fires only when the entry keyed by the
participant identifier has nested `code` equal to 200, falling through
to the top-level checks otherwise. -/
def claimDirectAddSuccess (pid : String) (rb : Option JVal) : Bool :=
  match rb with
  | some v =>
    if truthy v && isObjectType v && isNum200 (getFieldO (getField v pid) "code") then
      true
    else if truthy v && isObjectType v && isNum200 (getField v "code") then
      true
    else if truthy v && isObjectType v && isTrueVal (getField v "success") then
      true
    else
      match v with
      | jstr s => strIncludes s "200" || strIncludes (strToLower s) "success"
      | _ => false
  | none => false

/-- The amended direct-add success rule: when the body is an object with
a truthy entry keyed by the participant identifier, the decision is
committed to that entry (success iff its nested `code` equals 200); the
top-level `code`/`success` checks apply only when no such entry exists. -/
def claimDirectAddSuccessAmended (pid : String) (rb : Option JVal) : Bool :=
  match rb with
  | some v =>
    if truthy v && isObjectType v then
      if truthyO (getField v pid) then
        isNum200 (getFieldO (getField v pid) "code")
      else
        isNum200 (getField v "code") || isTrueVal (getField v "success")
    else
      match v with
      | jstr s => strIncludes s "200" || strIncludes (strToLower s) "success"
      | _ => false
  | none => false

/-- Conformance to the (amended) uniform envelope: the body is an object
whose `success` field is a boolean; a success carries a `data` payload
or a `message` string, a failure carries an `error` or a `message`
string (further endpoint-specific fields allowed). -/
def envelopeOKb (r : ApiResponse) : Bool :=
  match getField r.body "success" with
  | some (jbool true) =>
    (getField r.body "data").isSome || (getField r.body "message").isSome
  | some (jbool false) =>
    (getField r.body "error").isSome || (getField r.body "message").isSome
  | _ => false

/-! ## Helper lemmas -/

theorem append_ne_empty (s t : String) (h : s ≠ "") : s ++ t ≠ "" := by
  intro hc
  apply h
  have hd : (s ++ t).data = ("" : String).data := by rw [hc]
  rw [String.data_append] at hd
  rcases List.append_eq_nil.mp hd with ⟨h1, _⟩
  exact String.ext h1

theorem truthy_append (s t : String) (h : s ≠ "") : truthy (jstr (s ++ t)) = true := by
  simp only [truthy, decide_eq_true_eq]
  exact append_ne_empty s t h

theorem addFailMsg_truthy (pr : JVal) : truthy (addFailMsg pr) = true := by
  unfold addFailMsg
  split
  · split
    · assumption
    · unfold failedCodeMsg; exact truthy_append _ _ (by decide)
  · unfold failedCodeMsg; exact truthy_append _ _ (by decide)

theorem truthyO_exists (o : Option JVal) (h : truthyO o = true) :
    ∃ x, o = some x ∧ truthy x = true := by
  cases o with
  | none => simp [truthyO] at h
  | some v => exact ⟨v, rfl, by simpa [truthyO] using h⟩

theorem topLevelCheck_error (v : JVal) :
    (topLevelCheck v).directAddSuccessful = true ∨
    ∃ e, (topLevelCheck v).addError = some e ∧ truthy e = true := by
  unfold topLevelCheck
  split
  · exact Or.inl rfl
  · split
    · exact Or.inl rfl
    · split
      next hC =>
        rcases truthyO_exists _ hC with ⟨x, hx, ht⟩
        exact Or.inr ⟨x, by simp [hx], ht⟩
      next => exact Or.inr ⟨_, rfl, by decide⟩

theorem topLevelCheck_success (v : JVal) :
    (topLevelCheck v).directAddSuccessful =
      (isNum200 (getField v "code") || isTrueVal (getField v "success")) := by
  by_cases h1 : isNum200 (getField v "code") = true
  · simp [topLevelCheck, h1]
  · by_cases h2 : isTrueVal (getField v "success") = true
    · simp [topLevelCheck, h1, h2]
    · by_cases h3 : truthyO (getField v "error") = true <;>
        simp [topLevelCheck, h1, h2, h3, Bool.eq_false_iff.mpr h1, Bool.eq_false_iff.mpr h2]

theorem checkDirectAdd_fail_error (pid : String) (rb : Option JVal) :
    (checkDirectAdd pid rb).directAddSuccessful = true ∨
    ∃ e, (checkDirectAdd pid rb).addError = some e ∧ truthy e = true := by
  cases rb with
  | none => exact Or.inr ⟨_, rfl, by decide⟩
  | some v =>
    simp only [checkDirectAdd]
    by_cases hobj : (truthy v && isObjectType v) = true
    · simp only [hobj, if_true]
      rcases hpr : getField v pid with _ | pr
      · exact topLevelCheck_error v
      · by_cases hpt : truthy pr = true
        · simp only [hpt, if_true]
          by_cases h200 : isNum200 (getField pr "code") = true
          · simp [h200]
          · simp only [h200, Bool.false_eq_true, if_false]
            exact Or.inr ⟨_, rfl, addFailMsg_truthy pr⟩
        · simp only [hpt, Bool.false_eq_true, if_false]
          exact topLevelCheck_error v
    · simp only [hobj, Bool.false_eq_true, if_false]
      cases v with
      | jstr s =>
        by_cases hs : (strIncludes s "200" || strIncludes (strToLower s) "success") = true
        · simp [hs]
        · simp only [hs, Bool.false_eq_true, if_false]
          exact Or.inr ⟨_, rfl, truthy_append _ _ (by decide)⟩
      | jnull => exact Or.inr ⟨_, rfl, by decide⟩
      | jbool b => exact Or.inr ⟨_, rfl, by decide⟩
      | jnum n => exact Or.inr ⟨_, rfl, by decide⟩
      | jarr xs => simp [truthy, isObjectType] at hobj
      | jobj fs => simp [truthy, isObjectType] at hobj

/-! ## C1 — direct-add success decision -/

/-- A response body on which the claim's ordered rule and the code
disagree: the entry keyed by the participant id has nested code 500, but
a top-level `code: 200` is also present. -/
def c1Body : Option JVal :=
  some (jobj [("p", jobj [("code", jnum 500)]), ("code", jnum 200)])

/-- C1 (counterexample): on the body
`\x7b"p": \x7b"code": 500\x7d, "code": 200\x7d` for participant id `"p"`, the
claim's ordered rule (rule 1 fails on the nested code, rule 2 succeeds on
the top-level `code: 200`) declares success, but the code commits to the
participant-keyed entry and fails. -/
theorem C1_counterexample :
    claimDirectAddSuccess "p" c1Body = true ∧
    (checkDirectAdd "p" c1Body).directAddSuccessful = false := by
  constructor <;> rfl

/-- C1 (amended): the direct-add decision is a function of the response
body and participant id alone (never the HTTP status) and agrees with
the ordered rule amended so that a truthy participant-keyed entry
commits the decision (success iff its nested `code` is 200); moreover
whenever the step fails a truthy error value is captured. -/
theorem C1_direct_add_decision (pid : String) (rb : Option JVal) :
    (checkDirectAdd pid rb).directAddSuccessful = claimDirectAddSuccessAmended pid rb ∧
    ((checkDirectAdd pid rb).directAddSuccessful = false →
      ∃ e, (checkDirectAdd pid rb).addError = some e ∧ truthy e = true) := by
  constructor
  · cases rb with
    | none => rfl
    | some v =>
      simp only [checkDirectAdd, claimDirectAddSuccessAmended]
      by_cases hobj : (truthy v && isObjectType v) = true
      · simp only [hobj, if_true]
        rcases hpr : getField v pid with _ | pr
        · rw [topLevelCheck_success]
          simp [truthyO]
        · by_cases hpt : truthy pr = true
          · simp only [truthyO, hpt, if_true]
            by_cases h200 : isNum200 (getField pr "code") = true <;>
              simp [getFieldO, h200]
          · simp only [truthyO, hpt, Bool.false_eq_true, if_false]
            rw [topLevelCheck_success]
      · simp only [hobj, Bool.false_eq_true, if_false]
        cases v with
        | jstr s =>
          by_cases hs : (strIncludes s "200" || strIncludes (strToLower s) "success") = true <;>
            simp [hs]
        | jnull => rfl
        | jbool b => rfl
        | jnum n => rfl
        | jarr xs => simp [truthy, isObjectType] at hobj
        | jobj fs => simp [truthy, isObjectType] at hobj
  · intro h
    rcases checkDirectAdd_fail_error pid rb with hs | he
    · rw [h] at hs; exact absurd hs (by simp)
    · exact he

theorem C1_direct_add_decision_witness :
    (checkDirectAdd "p" (some (jobj [("error", jstr "x")]))).directAddSuccessful
      = claimDirectAddSuccessAmended "p" (some (jobj [("error", jstr "x")])) ∧
    ∃ e, (checkDirectAdd "p" (some (jobj [("error", jstr "x")]))).addError = some e ∧
      truthy e = true :=
  ⟨(C1_direct_add_decision "p" (some (jobj [("error", jstr "x")]))).1,
   (C1_direct_add_decision "p" (some (jobj [("error", jstr "x")]))).2 rfl⟩

/-! ## C2 — only the first participant governs the flow -/

/-- C2 (counterexample): with two participants supplied, the call does
not behave exactly as with only the first — the upstream add request
forwards the whole participants array, so the issued request differs. -/
theorem C2_counterexample :
    (inviteFlow "k" "g" ⟨some [⟨"p1"⟩, ⟨"p2"⟩], none, none⟩
        (.ok ⟨true, 200, "OK", "body", some (jobj [("code", jnum 200)])⟩)
        (.ok ⟨true, 200, "OK", "", none⟩)).addRequest ≠
    (inviteFlow "k" "g" ⟨some [⟨"p1"⟩], none, none⟩
        (.ok ⟨true, 200, "OK", "body", some (jobj [("code", jnum 200)])⟩)
        (.ok ⟨true, 200, "OK", "", none⟩)).addRequest := by
  decide

/-- C2 (amended): the returned response and the decision to request an
invite code depend only on the first participant — supplying extra
entries leaves them unchanged — but the upstream add request carries the
entire participants list. -/
theorem C2_first_participant_governs (apiKey chatId : String) (p : Participant)
    (ps : List Participant) (sn cn : Option JVal)
    (addFetch inviteFetch : Except String FetchResponse) :
    (inviteFlow apiKey chatId ⟨some (p :: ps), sn, cn⟩ addFetch inviteFetch).result =
      (inviteFlow apiKey chatId ⟨some [p], sn, cn⟩ addFetch inviteFetch).result ∧
    (inviteFlow apiKey chatId ⟨some (p :: ps), sn, cn⟩ addFetch inviteFetch).inviteRequested =
      (inviteFlow apiKey chatId ⟨some [p], sn, cn⟩ addFetch inviteFetch).inviteRequested ∧
    (inviteFlow apiKey chatId ⟨some (p :: ps), sn, cn⟩ addFetch inviteFetch).addRequest =
      some ⟨chatId, p :: ps⟩ :=
  ⟨rfl, rfl, rfl⟩

/-! ## C3 — duplicate emails are not rejected (dead conflict branch) -/

/-- A valid student registration body with a mixed-case email. -/
def c3Body1 : StudentsBody :=
  ⟨jstr "Ann", jstr "A@b.c", jstr "U", jstr "1", jstr "c1",
   some [jobj [("startTime", jstr "8:00"), ("endTime", jstr "9:00")]]⟩

/-- The same registration with the email differing only in letter case. -/
def c3Body2 : StudentsBody :=
  ⟨jstr "Ben", jstr "a@b.c", jstr "U", jstr "2", jstr "c1",
   some [jobj [("startTime", jstr "8:00"), ("endTime", jstr "9:00")]]⟩

/-- C3: both creations succeed with 201 and the store ends with two
records carrying the same lower-cased email — the claimed 400 conflict
never happens because `StudentSchema` declares no `unique` index on
`email`, leaving the handler's duplicate-key (`11000`) branch dead. -/
theorem C3_duplicate_email_not_rejected :
    (studentsPOST (.ok ()) ⟨[], []⟩ "s1" c3Body1).1.status = 201 ∧
    (studentsPOST (.ok ()) (studentsPOST (.ok ()) ⟨[], []⟩ "s1" c3Body1).2 "s2" c3Body2).1.status = 201 ∧
    ((studentsPOST (.ok ()) (studentsPOST (.ok ()) ⟨[], []⟩ "s1" c3Body1).2 "s2" c3Body2).2).students.map
        (fun s => s.email) = ["a@b.c", "a@b.c"] ∧
    studentInsert (mkStudentDoc "s2" c3Body2
        [jobj [("startTime", jstr "8:00"), ("endTime", jstr "9:00")]]) ≠ .dupKey := by
  refine ⟨rfl, rfl, rfl, fun h => ?_⟩
  rw [show studentInsert (mkStudentDoc "s2" c3Body2
        [jobj [("startTime", jstr "8:00"), ("endTime", jstr "9:00")]]) =
      .created (mkStudentDoc "s2" c3Body2
        [jobj [("startTime", jstr "8:00"), ("endTime", jstr "9:00")]]) from rfl] at h
  exact InsertOutcome.noConfusion h

/-! ## C4 — containment of external-call failures -/

/-- C4 (counterexample): a rejected direct-add fetch propagates out of
the invitation handler unhandled — the handler has no `try`/`catch` — so
not every external-call failure is converted to the envelope. -/
theorem C4_counterexample :
    (inviteFlow "k" "g" ⟨some [⟨"p"⟩], none, none⟩ (.error "network failure")
        (.ok ⟨true, 200, "OK", "", none⟩)).result = .error "network failure" :=
  rfl

/-- C4 (amended): every CRUD endpoint and the groups proxy catch an
external-call failure and convert it to a 500 error envelope, but the
invitation handler propagates a rejected provider call (either of its
two fetches) as an unhandled exception. -/
theorem C4_error_containment :
    (∀ e db, coursesGET (.error e) db = ⟨mkErrEnv e, 500⟩) ∧
    (∀ e db newId body, coursesPOST (.error e) db newId body = (⟨mkErrEnv e, 500⟩, db)) ∧
    (∀ e db id body, coursePUT (.error e) db id body = (⟨mkErrEnv e, 500⟩, db)) ∧
    (∀ e db id, courseDELETE (.error e) db id = (⟨mkErrEnv e, 500⟩, db)) ∧
    (∀ e db, studentsGET (.error e) db = ⟨mkErrEnv e, 500⟩) ∧
    (∀ e db newId b, studentsPOST (.error e) db newId b = (⟨mkErrEnv e, 500⟩, db)) ∧
    (∀ e db id b, studentPUT (.error e) db id b = (⟨mkErrEnv e, 500⟩, db)) ∧
    (∀ e db id, studentDELETE (.error e) db id = (⟨mkErrEnv e, 500⟩, db)) ∧
    (∀ e db id b, coursePUTChat (.error e) db id b = (⟨mkErrEnv e, 500⟩, db)) ∧
    (∀ k e, ∃ m, groupsGET k (.error e) = ⟨mkErrEnv m, 500⟩) ∧
    (∀ apiKey chatId p ps sn cn e f2,
      (inviteFlow apiKey chatId ⟨some (p :: ps), sn, cn⟩ (.error e) f2).result = .error e) ∧
    (∀ apiKey chatId p ps sn cn addResp e,
      (checkDirectAdd p.id (addResponseBody addResp)).directAddSuccessful = false →
      (inviteFlow apiKey chatId ⟨some (p :: ps), sn, cn⟩ (.ok addResp) (.error e)).result
        = .error e) := by
  refine ⟨fun e db => rfl, fun e db newId body => rfl, fun e db id body => rfl,
          fun e db id => rfl, fun e db => rfl, fun e db newId b => rfl,
          fun e db id b => rfl, fun e db id => rfl, fun e db id b => rfl,
          ?_, fun apiKey chatId p ps sn cn e f2 => rfl, ?_⟩
  · intro k e
    by_cases hk : k = ""
    · exact ⟨"WhatsApp API key not configured", by simp [groupsGET, hk, mkErrEnv]⟩
    · exact ⟨if e = "" then "Failed to fetch groups" else e, by simp [groupsGET, hk]⟩
  · intro apiKey chatId p ps sn cn addResp e h
    simp [inviteFlow, inviteResult, h]

theorem C4_error_containment_witness :
    (checkDirectAdd "p" (addResponseBody ⟨true, 200, "OK", "nope", none⟩)).directAddSuccessful
      = false ∧
    (inviteFlow "k" "g" ⟨some [⟨"p"⟩], none, none⟩ (.ok ⟨true, 200, "OK", "nope", none⟩)
        (.error "provider down")).result = .error "provider down" :=
  ⟨rfl, C4_error_containment.2.2.2.2.2.2.2.2.2.2.2 "k" "g" ⟨"p"⟩ [] none none
     ⟨true, 200, "OK", "nope", none⟩ "provider down" rfl⟩

/-! ## C5 — complete-failure outcome -/

/-- C5: when the direct-add step fails and the invite-code request
returns a non-OK HTTP status, the handler returns the complete-failure
outcome: success false, status 500, carrying both the captured
direct-add error and the invite-fetch error string, plus the
manual-intervention message. -/
theorem C5_complete_failure (apiKey chatId : String) (p : Participant)
    (ps : List Participant) (sn cn : Option JVal) (addResp inv : FetchResponse)
    (hfail : (checkDirectAdd p.id (addResponseBody addResp)).directAddSuccessful = false)
    (hok : inv.ok = false) :
    ∃ e, (checkDirectAdd p.id (addResponseBody addResp)).addError = some e ∧
      truthy e = true ∧
      (inviteFlow apiKey chatId ⟨some (p :: ps), sn, cn⟩ (.ok addResp) (.ok inv)).result =
        .ok ⟨completeFailureBody p.id (some e)
               (some (jstr ("HTTP " ++ toString inv.status ++ ": " ++ strTake inv.text 200))), 500⟩ ∧
      getField (completeFailureBody p.id (some e)
          (some (jstr ("HTTP " ++ toString inv.status ++ ": " ++ strTake inv.text 200)))) "success"
        = some (jbool false) ∧
      getField (completeFailureBody p.id (some e)
          (some (jstr ("HTTP " ++ toString inv.status ++ ": " ++ strTake inv.text 200)))) "originalAddError"
        = some e ∧
      getField (completeFailureBody p.id (some e)
          (some (jstr ("HTTP " ++ toString inv.status ++ ": " ++ strTake inv.text 200)))) "inviteCodeError"
        = some (jstr ("HTTP " ++ toString inv.status ++ ": " ++ strTake inv.text 200)) ∧
      getField (completeFailureBody p.id (some e)
          (some (jstr ("HTTP " ++ toString inv.status ++ ": " ++ strTake inv.text 200)))) "message"
        = some (jstr "Failed to add participant directly and could not get invite link. Manual intervention required.") := by
  rcases checkDirectAdd_fail_error p.id (addResponseBody addResp) with hs | ⟨e, he, ht⟩
  · rw [hfail] at hs; exact absurd hs (by simp)
  · refine ⟨e, he, ht, ?_, ?_, ?_, ?_, ?_⟩
    · simp [inviteFlow, inviteResult, hfail, hok, he]
    · simp [completeFailureBody, optField, ht, getField, lookupField]
    · simp [completeFailureBody, optField, ht, getField, lookupField]
    · simp [completeFailureBody, optField, ht, getField, lookupField, truthy_append]
    · simp [completeFailureBody, optField, ht, getField, lookupField, truthy_append]

theorem C5_complete_failure_witness :
    ∃ e, (checkDirectAdd "p" (addResponseBody ⟨true, 200, "OK", "nope", none⟩)).addError
        = some e ∧
      truthy e = true ∧
      (inviteFlow "k" "g" ⟨some [⟨"p"⟩], none, none⟩
          (.ok ⟨true, 200, "OK", "nope", none⟩)
          (.ok ⟨false, 404, "NF", "gone", none⟩)).result =
        .ok ⟨completeFailureBody "p" (some e) (some (jstr "HTTP 404: gone")), 500⟩ ∧
      getField (completeFailureBody "p" (some e) (some (jstr "HTTP 404: gone"))) "success"
        = some (jbool false) ∧
      getField (completeFailureBody "p" (some e) (some (jstr "HTTP 404: gone"))) "originalAddError"
        = some e ∧
      getField (completeFailureBody "p" (some e) (some (jstr "HTTP 404: gone"))) "inviteCodeError"
        = some (jstr "HTTP 404: gone") ∧
      getField (completeFailureBody "p" (some e) (some (jstr "HTTP 404: gone"))) "message"
        = some (jstr "Failed to add participant directly and could not get invite link. Manual intervention required.") :=
  C5_complete_failure "k" "g" ⟨"p"⟩ [] none none ⟨true, 200, "OK", "nope", none⟩
    ⟨false, 404, "NF", "gone", none⟩ rfl rfl

/-! ## C6 — fallback outcome with invite link and composed message -/

theorem listIncludes_self_append (n rest : List Char) :
    listIncludes (n ++ rest) n = true := by
  cases n with
  | nil => cases rest <;> simp [listIncludes]
  | cons c cs =>
    have hpre : (c :: cs).isPrefixOf ((c :: cs) ++ rest) = true := by
      rw [List.isPrefixOf_iff_prefix]
      exact List.prefix_append _ _
    simp [listIncludes, hpre]

theorem listIncludes_append_left (pre hay n : List Char)
    (h : listIncludes hay n = true) : listIncludes (pre ++ hay) n = true := by
  induction pre with
  | nil => simpa using h
  | cons c cs ih => simp [listIncludes, ih]

theorem strIncludes_self_append (n rest : String) :
    strIncludes (n ++ rest) n = true := by
  have : (n ++ rest).toList = n.toList ++ rest.toList := String.data_append n rest
  rw [strIncludes, this]
  exact listIncludes_self_append _ _

theorem strIncludes_mid (pre mid post : String) :
    strIncludes (pre ++ (mid ++ post)) mid = true := by
  have : (pre ++ (mid ++ post)).toList = pre.toList ++ (mid ++ post).toList :=
    String.data_append _ _
  rw [strIncludes, this]
  apply listIncludes_append_left
  have h2 : (mid ++ post).toList = mid.toList ++ post.toList := String.data_append _ _
  rw [h2]
  exact listIncludes_self_append _ _

/-- C6: with a rate-limited add response and an HTTP-OK invite body
carrying `inviteCode` `"ABC123"`, the call returns the fallback outcome:
success true, invite link `https://chat.whatsapp.com/ABC123`, the
original add error carried for diagnostics, and (with both display
strings supplied) a composed message containing the student name and the
course name. -/
theorem C6_fallback_invite (apiKey chatId : String) (p : Participant)
    (ps : List Participant) (sn cn : String) (hsn : sn ≠ "") (hcn : cn ≠ "")
    (hpid : p.id ≠ "error") (okb : Bool) (st1 st2 : Int) (stx1 stx2 t1 t2 : String)
    (ht1 : t1 ≠ "") (ht2 : t2 ≠ "") :
    (inviteFlow apiKey chatId ⟨some (p :: ps), some (jstr sn), some (jstr cn)⟩
        (.ok ⟨okb, st1, stx1, t1, some (jobj [("error", jstr "rate limited")])⟩)
        (.ok ⟨true, st2, stx2, t2, some (jobj [("inviteCode", jstr "ABC123")])⟩)).result =
      .ok ⟨fallbackBody apiKey p.id "https://chat.whatsapp.com/ABC123"
             (sn ++ "! Fadlan kusoo biir groupka \"" ++ cn ++ "\"  " ++
               "https://chat.whatsapp.com/ABC123")
             (some (jstr "rate limited")), 200⟩ ∧
    getField (fallbackBody apiKey p.id "https://chat.whatsapp.com/ABC123"
        (sn ++ "! Fadlan kusoo biir groupka \"" ++ cn ++ "\"  " ++
          "https://chat.whatsapp.com/ABC123") (some (jstr "rate limited"))) "success"
      = some (jbool true) ∧
    getField (fallbackBody apiKey p.id "https://chat.whatsapp.com/ABC123"
        (sn ++ "! Fadlan kusoo biir groupka \"" ++ cn ++ "\"  " ++
          "https://chat.whatsapp.com/ABC123") (some (jstr "rate limited"))) "inviteLink"
      = some (jstr "https://chat.whatsapp.com/ABC123") ∧
    getField (fallbackBody apiKey p.id "https://chat.whatsapp.com/ABC123"
        (sn ++ "! Fadlan kusoo biir groupka \"" ++ cn ++ "\"  " ++
          "https://chat.whatsapp.com/ABC123") (some (jstr "rate limited"))) "originalAddError"
      = some (jstr "rate limited") ∧
    getField (fallbackBody apiKey p.id "https://chat.whatsapp.com/ABC123"
        (sn ++ "! Fadlan kusoo biir groupka \"" ++ cn ++ "\"  " ++
          "https://chat.whatsapp.com/ABC123") (some (jstr "rate limited"))) "messageToSend"
      = some (jstr (sn ++ "! Fadlan kusoo biir groupka \"" ++ cn ++ "\"  " ++
          "https://chat.whatsapp.com/ABC123")) ∧
    strIncludes (sn ++ "! Fadlan kusoo biir groupka \"" ++ cn ++ "\"  " ++
        "https://chat.whatsapp.com/ABC123") sn = true ∧
    strIncludes (sn ++ "! Fadlan kusoo biir groupka \"" ++ cn ++ "\"  " ++
        "https://chat.whatsapp.com/ABC123") cn = true := by
  have hchk : checkDirectAdd p.id
      (addResponseBody ⟨okb, st1, stx1, t1, some (jobj [("error", jstr "rate limited")])⟩) =
      ⟨false, some (jstr "rate limited")⟩ := by
    simp [addResponseBody, ht1, checkDirectAdd, truthy, isObjectType, getField,
          lookupField, Ne.symm hpid, topLevelCheck, isNum200, isTrueVal, truthyO]
  have hext : extractInvite t2 (some (jobj [("inviteCode", jstr "ABC123")])) =
      .link "https://chat.whatsapp.com/ABC123" := by
    simp only [extractInvite, inviteCodeRaw, ht2, if_neg (by exact ht2)]
    rfl
  have hmsg : composeMessage (some (jstr sn)) (some (jstr cn))
      "https://chat.whatsapp.com/ABC123" =
      sn ++ "! Fadlan kusoo biir groupka \"" ++ cn ++ "\"  " ++
        "https://chat.whatsapp.com/ABC123" := by
    simp [composeMessage, truthyO, truthy, hsn, hcn, jsToStringO, jsToString]
  refine ⟨?_, ?_, ?_, ?_, ?_, ?_, ?_⟩
  · simp [inviteFlow, inviteResult, hchk, hext, hmsg]
  · rfl
  · rfl
  · rfl
  · rfl
  · rw [show sn ++ "! Fadlan kusoo biir groupka \"" ++ cn ++ "\"  " ++
        "https://chat.whatsapp.com/ABC123" =
        sn ++ ("! Fadlan kusoo biir groupka \"" ++ (cn ++ ("\"  " ++
        "https://chat.whatsapp.com/ABC123"))) by
      simp [String.append_assoc]]
    exact strIncludes_self_append _ _
  · rw [show sn ++ "! Fadlan kusoo biir groupka \"" ++ cn ++ "\"  " ++
        "https://chat.whatsapp.com/ABC123" =
        (sn ++ "! Fadlan kusoo biir groupka \"") ++ (cn ++ ("\"  " ++
        "https://chat.whatsapp.com/ABC123")) by
      simp [String.append_assoc]]
    exact strIncludes_mid _ _ _

theorem C6_fallback_invite_witness :
    (inviteFlow "k" "g" ⟨some [⟨"252@c.us"⟩], some (jstr "Ali"), some (jstr "Math")⟩
        (.ok ⟨true, 200, "OK", "x", some (jobj [("error", jstr "rate limited")])⟩)
        (.ok ⟨true, 200, "OK", "y", some (jobj [("inviteCode", jstr "ABC123")])⟩)).result =
      .ok ⟨fallbackBody "k" "252@c.us" "https://chat.whatsapp.com/ABC123"
             ("Ali" ++ "! Fadlan kusoo biir groupka \"" ++ "Math" ++ "\"  " ++
               "https://chat.whatsapp.com/ABC123")
             (some (jstr "rate limited")), 200⟩ ∧
    getField (fallbackBody "k" "252@c.us" "https://chat.whatsapp.com/ABC123"
        ("Ali" ++ "! Fadlan kusoo biir groupka \"" ++ "Math" ++ "\"  " ++
          "https://chat.whatsapp.com/ABC123") (some (jstr "rate limited"))) "success"
      = some (jbool true) ∧
    getField (fallbackBody "k" "252@c.us" "https://chat.whatsapp.com/ABC123"
        ("Ali" ++ "! Fadlan kusoo biir groupka \"" ++ "Math" ++ "\"  " ++
          "https://chat.whatsapp.com/ABC123") (some (jstr "rate limited"))) "inviteLink"
      = some (jstr "https://chat.whatsapp.com/ABC123") ∧
    getField (fallbackBody "k" "252@c.us" "https://chat.whatsapp.com/ABC123"
        ("Ali" ++ "! Fadlan kusoo biir groupka \"" ++ "Math" ++ "\"  " ++
          "https://chat.whatsapp.com/ABC123") (some (jstr "rate limited"))) "originalAddError"
      = some (jstr "rate limited") ∧
    getField (fallbackBody "k" "252@c.us" "https://chat.whatsapp.com/ABC123"
        ("Ali" ++ "! Fadlan kusoo biir groupka \"" ++ "Math" ++ "\"  " ++
          "https://chat.whatsapp.com/ABC123") (some (jstr "rate limited"))) "messageToSend"
      = some (jstr ("Ali" ++ "! Fadlan kusoo biir groupka \"" ++ "Math" ++ "\"  " ++
          "https://chat.whatsapp.com/ABC123")) ∧
    strIncludes ("Ali" ++ "! Fadlan kusoo biir groupka \"" ++ "Math" ++ "\"  " ++
        "https://chat.whatsapp.com/ABC123") "Ali" = true ∧
    strIncludes ("Ali" ++ "! Fadlan kusoo biir groupka \"" ++ "Math" ++ "\"  " ++
        "https://chat.whatsapp.com/ABC123") "Math" = true :=
  C6_fallback_invite "k" "g" ⟨"252@c.us"⟩ [] "Ali" "Math" (by decide) (by decide)
    (by decide) true 200 200 "OK" "OK" "x" "y" (by decide) (by decide)

/-! ## C7 — deleting a course leaves the student collection untouched -/

/-- C7: for every course deletion (any connection outcome, any store,
any id), the stored student records are exactly unchanged, and a
subsequent student list returns exactly those records (now populated
against the post-deletion course collection, so orphans render with a
null course). -/
theorem C7_course_delete_preserves_students (conn : Except String Unit)
    (db : AppDb) (cid : String) :
    ((courseDELETE conn db cid).2).students = db.students ∧
    studentsGET (.ok ()) (courseDELETE conn db cid).2 =
      ⟨mkDataEnv (jarr ((db.students.reverse).map
          (studentJson ((courseDELETE conn db cid).2).courses))), 200⟩ := by
  have h : ((courseDELETE conn db cid).2).students = db.students := by
    cases conn with
    | error e => rfl
    | ok u =>
      simp only [courseDELETE]
      split <;> rfl
  refine ⟨h, ?_⟩
  simp [studentsGET, h]

/-! ## C8 — session values round-trip verbatim -/

/-- The course-creation body of the round-trip check. -/
def c8Body : CoursesPostBody :=
  ⟨jstr "Math", some [jobj [("startTime", jstr "8:00"), ("endTime", jstr "9:00")]]⟩

/-- C8: creating a course with sessions `[\x7bstartTime:"8:00",
endTime:"9:00"\x7d]` and listing courses returns exactly those session
strings, unreformatted (the schema's trim setters are identities on
them). -/
theorem C8_session_round_trip :
    (coursesPOST (.ok ()) ⟨[], []⟩ "c1" c8Body).1.status = 201 ∧
    coursesGET (.ok ()) (coursesPOST (.ok ()) ⟨[], []⟩ "c1" c8Body).2 =
      ⟨mkDataEnv (jarr [courseJson ⟨"c1", "Math", [⟨"8:00", "9:00"⟩]⟩]), 200⟩ ∧
    ((coursesPOST (.ok ()) ⟨[], []⟩ "c1" c8Body).2).courses.map (fun c => c.sessions) =
      [[⟨"8:00", "9:00"⟩]] :=
  ⟨rfl, rfl, rfl⟩

/-! ## C10 — course update with no recognized (truthy) field -/

/-- C10: a course `PUT` whose body carries none of the recognized fields
with a truthy value — including fields present as empty strings — returns
the 400 validation envelope and leaves the store untouched, for **every**
store, in particular one where the id does not exist (so a nonexistent id
yields 400, not 404).  Both schema variants of the handler behave this
way. -/
theorem C10_put_missing_fields (db : AppDb) (dbc : List ChatCourseDoc) (id : String)
    (body : CoursePutBody) (bodyc : ChatCoursePutBody)
    (h1 : truthy body.courseName = false) (h2 : body.sessions = none)
    (h3 : truthy bodyc.courseName = false) (h4 : truthy bodyc.chatId = false) :
    coursePUT (.ok ()) db id body =
      (⟨mkErrEnv "At least one field (courseName or sessions) is required", 400⟩, db) ∧
    coursePUTChat (.ok ()) dbc id bodyc =
      (⟨mkErrEnv "At least one field (courseName or chatId) is required", 400⟩, dbc) := by
  constructor
  · simp [coursePUT, h1, h2]
  · simp [coursePUTChat, h3, h4]

theorem C10_put_missing_fields_witness :
    coursePUT (.ok ()) ⟨[], []⟩ "missing" ⟨jstr "", none⟩ =
      (⟨mkErrEnv "At least one field (courseName or sessions) is required", 400⟩, ⟨[], []⟩) ∧
    coursePUTChat (.ok ()) [] "missing" ⟨jstr "", jstr ""⟩ =
      (⟨mkErrEnv "At least one field (courseName or chatId) is required", 400⟩, []) :=
  C10_put_missing_fields ⟨[], []⟩ [] "missing" ⟨jstr "", none⟩ ⟨jstr "", jstr ""⟩
    (by decide) rfl (by decide) (by decide)

/-! ## C9 — uniform envelope shape -/

/-- C9 (counterexample): the course-delete success response has
`success: true` with a `message` but **no** `data` payload, so the
claim's "data payload (on success)" reading fails on it. -/
theorem C9_counterexample :
    getField ((courseDELETE (.ok ()) ⟨[⟨"c1", "M", [⟨"8:00", "9:00"⟩]⟩], []⟩ "c1").1).body
        "success" = some (jbool true) ∧
    getField ((courseDELETE (.ok ()) ⟨[⟨"c1", "M", [⟨"8:00", "9:00"⟩]⟩], []⟩ "c1").1).body
        "data" = none :=
  ⟨rfl, rfl⟩

theorem envelopeOKb_fallbackBody (apiKey pid url msg : String) (addErr : Option JVal) :
    envelopeOKb ⟨fallbackBody apiKey pid url msg addErr, 200⟩ = true := by
  rcases addErr with _ | x
  · rfl
  · by_cases hx : truthy x = true <;>
      simp only [fallbackBody, optField, hx, if_true, Bool.false_eq_true, if_false] <;> rfl

theorem envelopeOKb_completeFailureBody (pid : String) (addErr invErr : Option JVal) :
    envelopeOKb ⟨completeFailureBody pid addErr invErr, 500⟩ = true := by
  rcases addErr with _ | x <;> rcases invErr with _ | y
  · rfl
  · by_cases hy : truthy y = true <;>
      simp only [completeFailureBody, optField, hy, if_true, Bool.false_eq_true, if_false] <;> rfl
  · by_cases hx : truthy x = true <;>
      simp only [completeFailureBody, optField, hx, if_true, Bool.false_eq_true, if_false] <;> rfl
  · by_cases hx : truthy x = true <;> by_cases hy : truthy y = true <;>
      simp only [completeFailureBody, optField, hx, hy, if_true, Bool.false_eq_true, if_false] <;> rfl

theorem inviteResult_ok_envelope (apiKey : String) (body : GroupsPostBody)
    (f1 f2 : Except String FetchResponse) (r : ApiResponse)
    (h : inviteResult apiKey body f1 f2 = .ok r) : envelopeOKb r = true := by
  rcases body with ⟨pso, sn, cn⟩
  rcases pso with _ | ps
  · simp only [inviteResult] at h
    injection h with h2
    subst h2
    rfl
  · cases ps with
    | nil =>
      simp only [inviteResult] at h
      injection h with h2
      subst h2
      rfl
    | cons p ps =>
      simp only [inviteResult] at h
      split at h
      · exact absurd h (by simp)
      · split at h
        · injection h with h2; subst h2; rfl
        · split at h
          · exact absurd h (by simp)
          · split at h
            · split at h
              · injection h with h2; subst h2
                exact envelopeOKb_fallbackBody _ _ _ _ _
              · injection h with h2; subst h2
                exact envelopeOKb_completeFailureBody _ _ _
              · exact absurd h (by simp)
            · injection h with h2; subst h2
              exact envelopeOKb_completeFailureBody _ _ _

/-- C9 (amended): every response returned by every endpoint has a
boolean `success` field accompanied by at least one of `data`, `error`
or `message` — successes carry `data` or a `message`, failures carry an
`error` or a `message` — with further endpoint-specific fields allowed
(the invitation outcomes add several). -/
theorem C9_envelope_shape :
    (∀ conn db, envelopeOKb (coursesGET conn db) = true) ∧
    (∀ conn db newId body, envelopeOKb (coursesPOST conn db newId body).1 = true) ∧
    (∀ conn db id body, envelopeOKb (coursePUT conn db id body).1 = true) ∧
    (∀ conn db id, envelopeOKb (courseDELETE conn db id).1 = true) ∧
    (∀ conn db, envelopeOKb (studentsGET conn db) = true) ∧
    (∀ conn db newId b, envelopeOKb (studentsPOST conn db newId b).1 = true) ∧
    (∀ conn db id b, envelopeOKb (studentPUT conn db id b).1 = true) ∧
    (∀ conn db id, envelopeOKb (studentDELETE conn db id).1 = true) ∧
    (∀ conn dbc id bodyc, envelopeOKb (coursePUTChat conn dbc id bodyc).1 = true) ∧
    (∀ k f, envelopeOKb (groupsGET k f) = true) ∧
    (∀ apiKey chatId body f1 f2 r,
      (inviteFlow apiKey chatId body f1 f2).result = .ok r → envelopeOKb r = true) := by
  refine ⟨?_, ?_, ?_, ?_, ?_, ?_, ?_, ?_, ?_, ?_, ?_⟩
  · intro conn db
    cases conn <;> rfl
  · intro conn db newId body
    cases conn with
    | error e => rfl
    | ok u =>
      simp only [coursesPOST]
      repeat' split
      all_goals rfl
  · intro conn db id body
    cases conn with
    | error e => rfl
    | ok u =>
      simp only [coursePUT]
      repeat' split
      all_goals rfl
  · intro conn db id
    cases conn with
    | error e => rfl
    | ok u =>
      simp only [courseDELETE]
      repeat' split
      all_goals rfl
  · intro conn db
    cases conn <;> rfl
  · intro conn db newId b
    cases conn with
    | error e => rfl
    | ok u =>
      simp only [studentsPOST]
      repeat' split
      all_goals rfl
  · intro conn db id b
    cases conn with
    | error e => rfl
    | ok u =>
      simp only [studentPUT]
      repeat' split
      all_goals rfl
  · intro conn db id
    cases conn with
    | error e => rfl
    | ok u =>
      simp only [studentDELETE]
      repeat' split
      all_goals rfl
  · intro conn dbc id bodyc
    cases conn with
    | error e => rfl
    | ok u =>
      simp only [coursePUTChat]
      repeat' split
      all_goals rfl
  · intro k f
    simp only [groupsGET]
    repeat' split
    all_goals rfl
  · intro apiKey chatId body f1 f2 r h
    exact inviteResult_ok_envelope apiKey body f1 f2 r h

theorem C9_envelope_shape_witness :
    envelopeOKb ⟨participantsRequiredBody, 400⟩ = true :=
  C9_envelope_shape.2.2.2.2.2.2.2.2.2.2 "k" "g" ⟨none, none, none⟩
    (.ok ⟨true, 200, "OK", "", none⟩) (.ok ⟨true, 200, "OK", "", none⟩)
    ⟨participantsRequiredBody, 400⟩ rfl
